import Mathlib

/-!
Shallow embedding of the QuizStream FastAPI application (app/), covering the
authentication layer, the video upload pipeline, quiz generation and
retrieval, and the retrieval-augmented chat service.  External services
(Deepgram, Gemini, Chroma, the JSON parser of the standard library) are
modelled as oracle parameters; everything the repository itself computes is
translated directly from the Python source.
-/

namespace QuizStream

/-- JSON values, as produced by `json.loads` and consumed by the code
(Python dicts are association lists; numbers are modelled as integers,
which is all the claims need). -/
inductive Json where
  | null
  | bool (b : Bool)
  | num (n : Int)
  | str (s : String)
  | arr (xs : List Json)
  | obj (kvs : List (String × Json))

/-- Python `d.get(key)` on a parsed-JSON dict: the value at the first
matching key, `None` (here `none`) when the key is absent.  A stored JSON
`null` deserializes to Python `None` itself, so a null value and a missing
key are indistinguishable through `.get`, as they are in Python; both map
to `none`. -/
def jGet (j : Json) (key : String) : Option Json :=
  match j with
  | .obj kvs =>
    match (kvs.find? (fun kv => kv.1 == key)).map (fun kv => kv.2) with
    | some Json.null => none
    | v => v
  | _ => none

/-- Python truthiness of a JSON value (`None`, `0`, `""`, `[]`, and the
empty dict are falsy). -/
def pyTruthy : Json → Bool
  | .null => false
  | .bool b => b
  | .num n => n != 0
  | .str s => s != ""
  | .arr xs => !xs.isEmpty
  | .obj kvs => !kvs.isEmpty

/-- Whether a JSON value is an object (a Python dict, on which `.get` is
defined). -/
def jIsObj : Json → Bool
  | .obj _ => true
  | _ => false

/-- Errors raised by the Python code: `HTTPException(status, detail)` plus
the plain exceptions that appear in the services. -/
inductive PyErr where
  | http (status : Nat) (detail : String)
  | attributeError (msg : String)
  | valueError (msg : String)
  | runtimeError (msg : String)
  deriving DecidableEq, Repr

/-- A row of the `mcqs` table (app/models/mcqs.py).  `id` models the UUID
primary key as a counter value; `question`, `options` and `answer` hold the
JSON values the generation code writes (`options` is the nullable JSONB
column; `question` and `answer` are declared NOT NULL, which the commit
check inside `generate_and_store_mcqs` enforces). -/
structure MCQRow where
  id : Nat
  video_title : String
  question : Option Json
  options : Option Json
  answer : Option Json

/-- The columns declared on the MCQ model in app/models/mcqs.py.  Notably
there is no `video_id` column. -/
def mcqColumns : List String :=
  ["id", "video_title", "question", "options", "answer", "created_at"]

/-- A row of the `videos` table (app/models/video.py). -/
structure VideoRow where
  id : Nat
  title : String
  filename : String
  filepath : String
  transcript : Option String
  deriving DecidableEq, Repr

/-- The relational database state: the two tables the claims touch, plus a
counter standing for the UUID generator. -/
structure DB where
  videos : List VideoRow
  mcqs : List MCQRow
  nextId : Nat

/-- Decoded JWT claims (app/auth.py, class TokenData). -/
structure TokenData where
  username : String
  role : String
  deriving DecidableEq, Repr

/-- app/auth.py, `require_role`: the returned `role_checker` dependency
raises `HTTPException(403, "Not enough permissions")` when the user's role
is not in the allowed list, and otherwise passes the user through. -/
def require_role (allowed_roles : List String) (user : TokenData) :
    Except PyErr TokenData :=
  if user.role ∈ allowed_roles then Except.ok user
  else Except.error (PyErr.http 403 "Not enough permissions")

/-- The guarded routers wired up in app/main.py. -/
inductive Route where
  | videoUpload
  | videoList
  | videoApproval
  | viewMcqs
  | deleteMcq
  | chatbot
  | takeQuiz
  deriving DecidableEq, Repr

/-- app/main.py: the role list each router is included with
(`teacher_dependencies` vs `teacher_student_dependencies`). -/
def routeAllowedRoles : Route → List String
  | .videoUpload => ["teacher"]
  | .videoList => ["teacher"]
  | .videoApproval => ["teacher"]
  | .viewMcqs => ["teacher"]
  | .deleteMcq => ["teacher"]
  | .chatbot => ["teacher", "student"]
  | .takeQuiz => ["teacher", "student"]

/-- The role check a request with decoded token data `u` passes through
before reaching a route. -/
def routeGuard (r : Route) (u : TokenData) : Except PyErr TokenData :=
  require_role (routeAllowedRoles r) u

/-- The teacher-only routers of app/main.py. -/
def teacherOnlyRoutes : List Route :=
  [.videoUpload, .videoList, .videoApproval, .viewMcqs, .deleteMcq]

/-- The whitespace set of Python str.strip(). -/
def pyIsSpace (c : Char) : Bool :=
  c == ' ' || c == '\t' || c == '\n' || c == '\r' || c == '\x0b' || c == '\x0c'

/-- Python str.strip(): drop whitespace from both ends. -/
def pyStrip (s : String) : String :=
  String.mk (((s.toList.dropWhile pyIsSpace).reverse.dropWhile pyIsSpace).reverse)

/-- Python str.lower() (ASCII case mapping, which is all the code compares). -/
def pyLower (s : String) : String :=
  String.mk (s.toList.map Char.toLower)

/-- Python str.startswith(p). -/
def pyStartsWith (s p : String) : Bool :=
  p.toList.isPrefixOf s.toList

/-- Python str.endswith(p). -/
def pyEndsWith (s p : String) : Bool :=
  p.toList.reverse.isPrefixOf s.toList.reverse

/-- Python `c in s` for a single character. -/
def pyContainsChar (s : String) (c : Char) : Bool :=
  s.toList.contains c

/-- Python str.replace(a, b) for single-character a and b. -/
def pyReplaceChar (s : String) (a b : Char) : String :=
  String.mk (s.toList.map (fun c => if c == a then b else c))

/-- Python `value == "s"` where `value` came out of a parsed-JSON dict:
true exactly when the value is that string. -/
def jIsStrEq (o : Option Json) (s : String) : Bool :=
  match o with
  | some (.str t) => t == s
  | _ => false

/-- app/services/mcqs_generation.py, `extract_json_from_text`: strip the
text, remove a leading markdown fence ```` ``` ````/```` ```json ````
(case-insensitive) and a trailing ```` ``` ````, and when both a `[` and a
`]` occur return the substring from the first `[` to the last `]`
inclusive. -/
def extract_json_from_text (text : String) : String :=
  if text = "" then text
  else
    let t1 := pyStrip text
    let t2 :=
      if pyStartsWith t1 "```" then
        let a := t1.drop 3
        let b := if pyLower (a.take 4) = "json" then a.drop 4 else a
        let c := pyStrip b
        if pyEndsWith c "```" then pyStrip (c.dropRight 3) else c
      else t1
    if pyContainsChar t2 '[' && pyContainsChar t2 ']' then
      String.mk
        (((t2.toList.reverse.dropWhile (fun c => c != ']')).reverse).dropWhile
          (fun c => c != '['))
    else t2

/-- The fixed text that app/services/mcqs_generation.py puts before the
transcript in its f-string prompt (the `{{`/`}}` of the f-string render as
literal braces). -/
def mcqPromptHeader : String :=
  "
    You are an expert educational assessment creator.
    You will be given a learning content text (such as a lecture, discussion, or training material).
    Read it carefully and generate high-quality quiz questions that thoroughly assess the learner\x27s understanding.

    Instructions:
    1. Analyze the provided learning material to identify its main concepts, supporting facts, examples, and reasoning patterns.
    2. Consider the learning objectives implied or stated, and ensure your questions collectively cover all key ideas.
    3. Create questions that are logical, unambiguous, and self-contained (make sense without referencing the original material).
    4. Ensure variety in cognitive level:
       - Include easy, moderate, and challenging questions.
       - Test recall, application, and analysis.
    5. For Multiple Choice Questions (MCQs):
       - Create exactly 5 MCQs.
       - Each MCQ must have 4 clear and distinct options.
       - Only one correct answer per MCQ.
       - Distractors should be plausible but incorrect.
    6. For True/False questions:
       - Create exactly 5 statements.
       - Statements must be complete and understandable without saying “according to the transcript”.
       - Ensure a balanced mix of True and False answers.
    7. Avoid copying sentences verbatim unless necessary for accuracy.
    8. Do NOT mention the words “transcript” or “document” in the final questions.

    Output Format:
    Return ONLY valid JSON in the following array format (no explanations, no markdown):
    [
        \x7b
            \"question\": \"...\",
            \"options\": [\"Option A\", \"Option B\", \"Option C\", \"Option D\"],
            \"answer\": \"Correct Option Text\",
            \"type\": \"mcq\"
        \x7d,
        \x7b
            \"question\": \"...\",
            \"answer\": \"True\",
            \"type\": \"true_false\"
        \x7d
    ]

    Learning material:
    "

/-- The full prompt string: the fixed template with the transcript
substituted for `{transcript}` (the f-string ends with a newline and four
spaces after the transcript). -/
def mcqPrompt (transcript : String) : String :=
  mcqPromptHeader ++ transcript ++ "\n    "

/-- One row built by the storage loop of `generate_and_store_mcqs`:
`options` is kept only when the element's `type` equals `"mcq"`. -/
def mkMcqRow (video_title : String) (rid : Nat) (item : Json) : MCQRow :=
  ⟨rid, video_title, jGet item "question",
    (if jIsStrEq (jGet item "type") "mcq" then jGet item "options" else none),
    jGet item "answer"⟩

/-- app/services/mcqs_generation.py, `generate_and_store_mcqs`.
`llm` is the Gemini `generate_content` call (prompt to raw response text)
and `parse` is `json.loads` (returning `none` when the text is not valid
JSON).  The storage loop calls `.get` on each element (an AttributeError
for a non-dict element) and the commit enforces the NOT NULL constraints
on `question` and `answer` declared in app/models/mcqs.py — a missing key
and an explicit JSON null both reach the column as Python None, an
IntegrityError at commit; either failure rolls back, so nothing is
stored. -/
def generate_and_store_mcqs (llm : String → Except String String)
    (parse : String → Option Json) (transcript video_title : String)
    (db : DB) : Except PyErr (DB × String) :=
  if pyStrip transcript = "" then
    Except.error (PyErr.valueError "Transcript is empty. Cannot generate MCQs.")
  else
    match llm (mcqPrompt transcript) with
    | Except.error e =>
      Except.error (PyErr.runtimeError ("Gemini API call failed: " ++ e))
    | Except.ok raw_text =>
      let clean_text := extract_json_from_text raw_text
      match parse clean_text with
      | none =>
        Except.error (PyErr.valueError "Gemini response is not valid JSON")
      | some (Json.arr mcqs_data) =>
        let rows := mcqs_data.enum.map
          (fun p => mkMcqRow video_title (db.nextId + p.1) p.2)
        if mcqs_data.all jIsObj
            && rows.all (fun r => r.question.isSome && r.answer.isSome) then
          Except.ok
            (⟨db.videos, db.mcqs ++ rows, db.nextId + mcqs_data.length⟩,
              toString mcqs_data.length ++ " questions stored successfully")
        else
          Except.error (PyErr.runtimeError "Failed to store MCQs")
      | some _ =>
        Except.error
          (PyErr.valueError "Gemini response is not valid JSON: Parsed JSON is not a list.")

/-- The message carried by an exception. -/
def pyErrMsg : PyErr → String
  | .http _ d => d
  | .attributeError m => m
  | .valueError m => m
  | .runtimeError m => m

/-- The delete branch of review_video runs
`db.query(MCQ).filter(MCQ.video_id == video.id).delete()`; the MCQ model
declares no `video_id` column (see `mcqColumns`), so the attribute lookup
`MCQ.video_id` raises AttributeError before any row is deleted. -/
def mcqDeleteByVideoId (mcqs : List MCQRow) (_vid : Nat) :
    Except PyErr (List MCQRow × Nat) :=
  if "video_id" ∈ mcqColumns then
    -- what the query would do if the column existed; never reached
    Except.ok (mcqs, 0)
  else
    Except.error
      (PyErr.attributeError "type object \x27MCQ\x27 has no attribute \x27video_id\x27")

/-- app/routers/video_approve.py, review_video. -/
def review_video (llm : String → Except String String)
    (parse : String → Option Json) (db : DB) (title action : String) :
    Except PyErr (DB × String) :=
  match db.videos.find? (fun v => v.title == title) with
  | none => Except.error (PyErr.http 404 "Video not found")
  | some video =>
    if pyLower action = "delete" then
      match mcqDeleteByVideoId db.mcqs video.id with
      | Except.error e => Except.error e
      | Except.ok (remaining, _) =>
        Except.ok
          (⟨db.videos.filter (fun v => v.id != video.id), remaining, db.nextId⟩,
            "Video \x27" ++ title ++ "\x27 and related MCQs deleted successfully")
    else if pyLower action = "approve" then
      match video.transcript with
      | none => Except.error (PyErr.http 400 "Transcript missing for this video")
      | some t =>
        if t = "" then
          Except.error (PyErr.http 400 "Transcript missing for this video")
        else
          match generate_and_store_mcqs llm parse t video.title db with
          | Except.error e =>
            Except.error (PyErr.http 500 ("MCQ generation failed: " ++ pyErrMsg e))
          | Except.ok (db2, _) =>
            Except.ok
              (db2, "Video \x27" ++ title ++ "\x27 approved and MCQs generated successfully")
    else
      Except.error (PyErr.http 400 "Invalid action. Use \x27delete\x27 or \x27approve\x27.")

/-- re.sub of `[^A-Za-z0-9_\-]+` with `_` (video_upload.py,
sanitize_filename): each maximal run of disallowed characters becomes one
underscore.  The flag records whether we are inside such a run. -/
def isSafeFilenameChar (c : Char) : Bool :=
  c.isAlphanum || c == '_' || c == '-'

def sanitizeAux : List Char → Bool → List Char
  | [], _ => []
  | c :: cs, inRun =>
    if isSafeFilenameChar c then c :: sanitizeAux cs false
    else if inRun then sanitizeAux cs true
    else '_' :: sanitizeAux cs true

def sanitize_filename (title : String) : String :=
  String.mk (sanitizeAux title.toList false)

/-- The extension part of os.path.splitext: everything from the last dot,
except that the leading dots of the name never start an extension. -/
def splitext_ext (name : String) : String :=
  let rest := name.toList.dropWhile (fun c => c == '.')
  if rest.contains '.' then
    String.mk ('.' :: (rest.reverse.takeWhile (fun c => c != '.')).reverse)
  else ""

/-- The arguments of one Deepgram `sync_prerecorded` call. -/
structure DgCall where
  mimetype : String
  punctuate : Bool
  deriving DecidableEq, Repr

/-- `response["results"]["channels"][0]["alternatives"][0]["transcript"]`:
`none` when any lookup or index fails or the value is not a string (any
such failure is caught and turned into an HTTP 500). -/
def dgExtractTranscript (resp : Json) : Option String :=
  match jGet resp "results" with
  | some r =>
    match jGet r "channels" with
    | some (.arr (c0 :: _)) =>
      match jGet c0 "alternatives" with
      | some (.arr (a0 :: _)) =>
        match jGet a0 "transcript" with
        | some (.str t) => some t
        | _ => none
      | _ => none
    | _ => none
  | _ => none

/-- transcribe_audio (routers/video_upload.py; utils/audio_handling.py is
identical): one `sync_prerecorded` call with mimetype "audio/mpeg" and
punctuate=True; returns the stripped transcript, or HTTP 500 when the call
or the extraction fails.  The first component is the log of Deepgram calls
made. -/
def transcribe_audio (dg : DgCall → Except String Json) :
    List DgCall × Except PyErr String :=
  let call : DgCall := ⟨"audio/mpeg", true⟩
  match dg call with
  | Except.error e =>
    ([call], Except.error (PyErr.http 500 ("Transcription failed: " ++ e)))
  | Except.ok resp =>
    match dgExtractTranscript resp with
    | some t => ([call], Except.ok (pyStrip t))
    | none => ([call], Except.error (PyErr.http 500 "Transcription failed"))

/-- Keyword arguments given to the text splitter (none = left to the
library default). -/
structure SplitterArgs where
  chunk_size : Option Nat
  chunk_overlap : Option Nat
  deriving DecidableEq, Repr

/-- embeddings.py passes chunk_size=1000 and chunk_overlap=50 to
SentenceTransformersTokenTextSplitter explicitly. -/
def embedSplitterArgs : SplitterArgs := ⟨some 1000, some 50⟩

/-- Keyword arguments given to `as_retriever` (none = left to the library
default; lambda_mult is recorded in tenths to stay in Nat). -/
structure RetrieverArgs where
  search_type : Option String
  k : Option Nat
  lambda_mult_tenths : Option Nat
  deriving DecidableEq, Repr

/-- chatbot.py builds the retriever with search_type="mmr" and
search_kwargs \x7b"k": 5, "lambda_mult": 0.5\x7d. -/
def chatRetrieverArgs : RetrieverArgs := ⟨some "mmr", some 5, some 5⟩

/-- What claim C6 asserts the code does: pass nothing, delegating every
parameter to the library defaults. -/
def specDefaultSplitterArgs : SplitterArgs := ⟨none, none⟩

/-- What claim C6 asserts for retrieval: nothing passed explicitly. -/
def specDefaultRetrieverArgs : RetrieverArgs := ⟨none, none, none⟩

/-- The Chroma persistent store: collections by name, each the list of
documents added to it. -/
abbrev VectorStore := List (String × List String)

/-- `get_or_create_collection` followed by `collection.add(documents)`. -/
def storeAdd : VectorStore → String → List String → VectorStore
  | [], name, docs => [(name, docs)]
  | (n, ds) :: rest, name, docs =>
    if n == name then (n, ds ++ docs) :: rest
    else (n, ds) :: storeAdd rest name docs

/-- embeddings.py, embed_and_store_transcript: split the transcript with
the explicitly passed splitter arguments, then add the chunks to the
collection named after the video title with spaces replaced by
underscores.  `split` is the SentenceTransformersTokenTextSplitter. -/
def embed_and_store_transcript (split : SplitterArgs → String → List String)
    (store : VectorStore) (transcript video_title : String) : VectorStore :=
  let chunks := split embedSplitterArgs transcript
  storeAdd store (pyReplaceChar video_title ' ' '_') chunks

/-- embeddings.py, GeminiEmbedding.__call__: a Python loop appending one
genai.embed_content result per input text.  Returns the embeddings and the
log of API calls made (the texts sent). -/
def geminiEmbeddingCall (embedApi : String → List Int) (texts : List String) :
    List (List Int) × List String :=
  texts.foldl (fun acc text => (acc.1 ++ [embedApi text], acc.2 ++ [text])) ([], [])

/-- chatbot.py, GeminiEmbedding.embed_documents: the same per-text loop. -/
def gemini_embed_documents (embedApi : String → List Int) (texts : List String) :
    List (List Int) × List String :=
  texts.foldl (fun acc text => (acc.1 ++ [embedApi text], acc.2 ++ [text])) ([], [])

/-- chatbot.py, GeminiEmbedding.embed_query: a single embed_content call. -/
def gemini_embed_query (embedApi : String → List Int) (text : String) :
    List Int × List String :=
  (embedApi text, [text])

/-- The observable external steps of the upload pipeline, in the order they
are performed. -/
inductive UploadEv where
  | saveFile
  | extractAudio
  | dgTranscribe
  | storeVideo
  | embedTranscript (args : SplitterArgs)
  | generateMcqs
  deriving DecidableEq, Repr

/-- The JSON body returned by the upload endpoints (id, message,
transcript). -/
structure UploadResp where
  id : Nat
  message : String
  transcript : String
  deriving DecidableEq, Repr

/-- The external world of the upload pipeline: file save (or yt-dlp
download), ffmpeg extraction, Deepgram, Gemini, json.loads, the text
splitter, and the generated UUID. -/
structure Ext where
  saveFileOk : Except String Unit
  extractAudioOk : Except String Unit
  dg : DgCall → Except String Json
  llm : String → Except String String
  parse : String → Option Json
  split : SplitterArgs → String → List String
  uuid : String

/-- Application state: the relational database and the vector store. -/
structure AppState where
  db : DB
  store : VectorStore

/-- video_upload.py, save_video_and_transcript: insert the video row,
commit, then embed the transcript into the vector store. -/
def save_video_and_transcript (ext : Ext)
    (title filename filepath transcript : String) (st : AppState) :
    List UploadEv × (AppState × VideoRow) :=
  let video : VideoRow := ⟨st.db.nextId, title, filename, filepath, some transcript⟩
  let db2 : DB := ⟨st.db.videos ++ [video], st.db.mcqs, st.db.nextId + 1⟩
  let store2 := embed_and_store_transcript ext.split st.store transcript title
  ([.storeVideo, .embedTranscript embedSplitterArgs], (⟨db2, store2⟩, video))

/-- The unique filename built by upload_video. -/
def uploadVideoFilename (ext : Ext) (title fileName : String) : String :=
  sanitize_filename title ++ "_" ++ ext.uuid ++ splitext_ext fileName

/-- video_upload.py, upload_video: 400 when no filename; then save the
file, extract audio, transcribe, store the video row and embed the
transcript, generate and store the quiz questions, and answer with the new
id and the transcript.  The first component is the ordered log of external
steps attempted. -/
def upload_video (ext : Ext) (title fileName : String) (st : AppState) :
    List UploadEv × Except PyErr (AppState × UploadResp) :=
  if fileName = "" then
    ([], Except.error (PyErr.http 400 "No file uploaded"))
  else
    let unique_filename := uploadVideoFilename ext title fileName
    let filepath := "uploads/videos/" ++ unique_filename
    match ext.saveFileOk with
    | Except.error e =>
      ([.saveFile], Except.error (PyErr.http 500 ("File saving failed: " ++ e)))
    | Except.ok _ =>
      match ext.extractAudioOk with
      | Except.error e =>
        ([.saveFile, .extractAudio],
          Except.error (PyErr.http 500 ("Audio extraction failed: " ++ e)))
      | Except.ok _ =>
        match (transcribe_audio ext.dg).2 with
        | Except.error e =>
          ([.saveFile, .extractAudio, .dgTranscribe], Except.error e)
        | Except.ok transcript =>
          let r := save_video_and_transcript ext title unique_filename filepath
            transcript st
          match generate_and_store_mcqs ext.llm ext.parse transcript title
              r.2.1.db with
          | Except.error e =>
            ([.saveFile, .extractAudio, .dgTranscribe] ++ r.1 ++ [.generateMcqs],
              Except.error (PyErr.http 500 ("MCQ generation failed: " ++ pyErrMsg e)))
          | Except.ok (db2, _) =>
            ([.saveFile, .extractAudio, .dgTranscribe] ++ r.1 ++ [.generateMcqs],
              Except.ok (⟨db2, r.2.1.store⟩,
                ⟨r.2.2.id,
                  "Video uploaded, transcribed, and MCQs generated successfully",
                  transcript⟩))

/-- The filename built by upload_youtube_video. -/
def uploadYoutubeFilename (ext : Ext) (title : String) : String :=
  sanitize_filename title ++ "_" ++ ext.uuid ++ ".mp4"

/-- video_upload.py, upload_youtube_video: download via yt-dlp, then the
same pipeline as upload_video. -/
def upload_youtube_video (ext : Ext) (_youtube_url title : String)
    (st : AppState) : List UploadEv × Except PyErr (AppState × UploadResp) :=
  let video_filename := uploadYoutubeFilename ext title
  let video_path := "uploads/videos/" ++ video_filename
  match ext.saveFileOk with
  | Except.error e =>
    ([.saveFile], Except.error (PyErr.http 500 ("Failed to download video: " ++ e)))
  | Except.ok _ =>
    match ext.extractAudioOk with
    | Except.error e =>
      ([.saveFile, .extractAudio],
        Except.error (PyErr.http 500 ("Audio extraction failed: " ++ e)))
    | Except.ok _ =>
      match (transcribe_audio ext.dg).2 with
      | Except.error e =>
        ([.saveFile, .extractAudio, .dgTranscribe], Except.error e)
      | Except.ok transcript =>
        let r := save_video_and_transcript ext title video_filename video_path
          transcript st
        match generate_and_store_mcqs ext.llm ext.parse transcript title
            r.2.1.db with
        | Except.error e =>
          ([.saveFile, .extractAudio, .dgTranscribe] ++ r.1 ++ [.generateMcqs],
            Except.error (PyErr.http 500 ("MCQ generation failed: " ++ pyErrMsg e)))
        | Except.ok (db2, _) =>
          ([.saveFile, .extractAudio, .dgTranscribe] ++ r.1 ++ [.generateMcqs],
            Except.ok (⟨db2, r.2.1.store⟩,
              ⟨r.2.2.id,
                "YouTube video processed, transcribed, and MCQs generated successfully",
                transcript⟩))

/-- The observable external steps of the chat flow. -/
inductive ChatEv where
  | retrieve (args : RetrieverArgs) (collection query : String)
  | generate (prompt : String)

/-- prompt_template.py, format_chat_history: number the turns, with the
fixed fallback for an empty history. -/
def format_chat_history (history : List (String × String)) : String :=
  if history.isEmpty then "No previous messages."
  else
    String.intercalate "\n"
      (history.enum.map (fun p =>
        toString (p.1 + 1) ++ ". User: " ++ p.2.1 ++ "\n   Assistant: " ++ p.2.2))

/-- prompt_template.py, build_chat_prompt: render the tutor template
(`tmpl`, the Jinja2 template of app/prompts/tutor_prompt.txt, a fixed
function of the four values) with the title, the context (with a fixed
fallback when empty), the formatted history and the query. -/
def build_chat_prompt (tmpl : String → String → String → String → String)
    (video_title context : String) (session_history : List (String × String))
    (user_query : String) : String :=
  tmpl video_title
    (if context = "" then "No relevant context available." else context)
    (format_chat_history session_history) user_query

/-- chatbot.py, chat_with_video: open the Chroma collection named after the
video title (spaces to underscores), retrieve with the MMR retriever, join
the chunks with blank lines, build the prompt, and call the model once.
The first component is the ordered log of external steps. -/
def chat_with_video (retrieve : RetrieverArgs → String → String → List String)
    (llm : String → String)
    (tmpl : String → String → String → String → String)
    (video_title user_query : String)
    (session_history : List (String × String)) : List ChatEv × String :=
  let collection_name := pyReplaceChar video_title ' ' '_'
  let retrieved_docs := retrieve chatRetrieverArgs collection_name user_query
  let context := String.intercalate "\n\n" retrieved_docs
  let prompt := build_chat_prompt tmpl video_title context session_history user_query
  ([ChatEv.retrieve chatRetrieverArgs collection_name user_query,
    ChatEv.generate prompt], llm prompt)

/-- A quiz question as returned by the take-quiz endpoint: only the
question text and the options. -/
structure QuizQuestionOut where
  question : Option Json
  options : Json

/-- `q.options if q.options else ["True", "False"]`: the stored options
when truthy, the True/False default otherwise. -/
def defaultedOptions : Option Json → Json
  | some o => if pyTruthy o then o else Json.arr [Json.str "True", Json.str "False"]
  | none => Json.arr [Json.str "True", Json.str "False"]

/-- The row-to-response projection of get_quiz_questions. -/
def quizView (q : MCQRow) : QuizQuestionOut :=
  ⟨q.question, defaultedOptions q.options⟩

/-- routers/take_quiz.py, get_quiz_questions: all questions for the title,
answers excluded, 404 when there are none. -/
def get_quiz_questions (db : DB) (video_title : String) :
    Except PyErr (List QuizQuestionOut) :=
  let questions := db.mcqs.filter (fun q => q.video_title == video_title)
  if questions.isEmpty then
    Except.error (PyErr.http 404 "No quiz found for this video.")
  else Except.ok (questions.map quizView)

/-- Two MCQ rows that agree on everything except possibly the stored
correct answer. -/
def sameExceptAnswer (r1 r2 : MCQRow) : Prop :=
  r1.id = r2.id ∧ r1.video_title = r2.video_title ∧ r1.question = r2.question
    ∧ r1.options = r2.options

/-- Two database states that differ only in the answer fields of quiz
rows. -/
def dbSameExceptAnswers (d1 d2 : DB) : Prop :=
  d1.videos = d2.videos ∧ List.Forall₂ sameExceptAnswer d1.mcqs d2.mcqs

/-- An encoded JWT, modelled as its signed payload: only the holder of the
same secret can decode it. -/
structure Jwt where
  claims : List (String × Json)
  key : String

/-- Python dict lookup `payload.get(k)`. -/
def dictGet (d : List (String × Json)) (k : String) : Option Json :=
  (d.find? (fun kv => kv.1 == k)).map (fun kv => kv.2)

/-- Python dict `update(\x7bk: v\x7d)` (the key's position is irrelevant to
lookups; the old binding is dropped and the new one appended). -/
def dictUpdate (d : List (String × Json)) (k : String) (v : Json) :
    List (String × Json) :=
  d.filter (fun kv => kv.1 != k) ++ [(k, v)]

/-- app/auth.py: ACCESS_TOKEN_EXPIRE_MINUTES (times are in minutes). -/
def ACCESS_TOKEN_EXPIRE_MINUTES : Int := 60

/-- jose jwt.encode, modelled: sign the payload with the secret. -/
def jwt_encode (payload : List (String × Json)) (key : String) : Jwt :=
  ⟨payload, key⟩

/-- jose jwt.decode, modelled from the library contract: raises JWTError
(here `none`) when the key differs or the exp claim is expired or
malformed; otherwise returns the payload. -/
def jwt_decode (tok : Jwt) (key : String) (now : Int) :
    Option (List (String × Json)) :=
  if tok.key = key then
    match dictGet tok.claims "exp" with
    | some (Json.num e) => if now < e then some tok.claims else none
    | none => some tok.claims
    | some _ => none
  else none

/-- app/auth.py, create_access_token: copy the payload, set exp to now plus
the delta (default ACCESS_TOKEN_EXPIRE_MINUTES), and encode with the
secret. -/
def create_access_token (data : List (String × Json)) (now : Int)
    (expires_delta : Option Int) (secret : String) : Jwt :=
  let expire := now +
    (match expires_delta with
      | some d => d
      | none => ACCESS_TOKEN_EXPIRE_MINUTES)
  jwt_encode (dictUpdate data "exp" (Json.num expire)) secret

/-- app/auth.py, get_current_user: decode the token, read sub and role,
401 when the decode fails or either claim is missing.  A present non-string
claim would escape as a pydantic ValidationError rather than a 401. -/
def get_current_user (tok : Jwt) (secret : String) (now : Int) :
    Except PyErr TokenData :=
  match jwt_decode tok secret now with
  | none => Except.error (PyErr.http 401 "Invalid authentication")
  | some payload =>
    match dictGet payload "sub", dictGet payload "role" with
    | none, _ => Except.error (PyErr.http 401 "Invalid authentication")
    | _, none => Except.error (PyErr.http 401 "Invalid authentication")
    | some (Json.str u), some (Json.str r) => Except.ok ⟨u, r⟩
    | some _, some _ => Except.error (PyErr.valueError "pydantic validation failed")

/-! Concrete fixtures used by the witness theorems below. -/

/-- A Deepgram response whose first channel's first alternative carries the
transcript " hello world ". -/
def dgRespW : Json :=
  Json.obj [("results", Json.obj [("channels", Json.arr [Json.obj [("alternatives",
    Json.arr [Json.obj [("transcript", Json.str " hello world ")]])]])])]

/-- An external world where every call succeeds and the model returns the
empty question array. -/
def extW : Ext :=
  ⟨Except.ok (), Except.ok (), fun _ => Except.ok dgRespW,
    fun _ => Except.ok "[]",
    fun s => if s = "[]" then some (Json.arr []) else none,
    fun _ t => [t], "u1"⟩

/-- An empty initial application state. -/
def stW : AppState := ⟨⟨[], [], 0⟩, []⟩

/-- A raw Gemini answer holding one MCQ and one true/false question. -/
def rawC3 : String :=
  "[\x7b\"question\": \"Q1\", \"options\": [\"A\", \"B\", \"C\", \"D\"], \"answer\": \"A\", \"type\": \"mcq\"\x7d, \x7b\"question\": \"Q2\", \"answer\": \"True\", \"type\": \"true_false\"\x7d]"

/-- The first element `rawC3` parses to. -/
def itemC3a : Json :=
  Json.obj [("question", Json.str "Q1"),
    ("options", Json.arr [Json.str "A", Json.str "B", Json.str "C", Json.str "D"]),
    ("answer", Json.str "A"), ("type", Json.str "mcq")]

/-- The second element `rawC3` parses to. -/
def itemC3b : Json :=
  Json.obj [("question", Json.str "Q2"), ("answer", Json.str "True"),
    ("type", Json.str "true_false")]

/-- json.loads on exactly `rawC3`. -/
def parseC3 : String → Option Json :=
  fun s => if s = rawC3 then some (Json.arr [itemC3a, itemC3b]) else none

/-- A raw Gemini answer whose one element carries an explicit null
question. -/
def rawC3n : String :=
  "[\x7b\"question\": null, \"answer\": \"True\", \"type\": \"true_false\"\x7d]"

/-- The element `rawC3n` parses to: question is JSON null, i.e. Python
None. -/
def itemC3n : Json :=
  Json.obj [("question", Json.null), ("answer", Json.str "True"),
    ("type", Json.str "true_false")]

/-- json.loads on exactly `rawC3n`. -/
def parseC3n : String → Option Json :=
  fun s => if s = rawC3n then some (Json.arr [itemC3n]) else none

/-- A database with one quiz row whose stored answer is "A". -/
def dbC7a : DB :=
  ⟨[], [⟨1, "v", some (Json.str "Q"), some (Json.arr [Json.str "A", Json.str "B"]),
    some (Json.str "A")⟩], 2⟩

/-- The same database with the stored answer flipped to "B". -/
def dbC7b : DB :=
  ⟨[], [⟨1, "v", some (Json.str "Q"), some (Json.arr [Json.str "A", Json.str "B"]),
    some (Json.str "B")⟩], 2⟩

/-- The database produced by uploading "clip.mp4" as "Vid" into the empty
state `stW` under the world `extW`. -/
def dbW : DB :=
  ⟨[⟨0, "Vid", "Vid_u1.mp4", "uploads/videos/Vid_u1.mp4", some "hello world"⟩],
    [], 1⟩

/-- A Deepgram response carrying the transcript " hi ". -/
def dgRespC9 : Json :=
  Json.obj [("results", Json.obj [("channels", Json.arr [Json.obj [("alternatives",
    Json.arr [Json.obj [("transcript", Json.str " hi ")]])]])])]

end QuizStream

namespace QuizStream

/-- Claim C1: for every request bearing a valid token, the guard on each
route succeeds exactly when the token's role is in that route's allowed
list, and otherwise fails with a 403 error; the teacher-only routes
(video-upload, video-list, video-approval, view-mcqs, delete-mcq) admit
exactly the role "teacher", and the chatbot and take-quiz routes admit
exactly the roles "teacher" and "student". -/
theorem rbac_route_guard (r : Route) (u : TokenData) :
    (routeGuard r u = Except.ok u ↔ u.role ∈ routeAllowedRoles r)
    ∧ (u.role ∉ routeAllowedRoles r →
        routeGuard r u = Except.error (PyErr.http 403 "Not enough permissions"))
    ∧ (r ∈ teacherOnlyRoutes →
        (routeGuard r u = Except.ok u ↔ u.role = "teacher"))
    ∧ ((r = Route.chatbot ∨ r = Route.takeQuiz) →
        (routeGuard r u = Except.ok u ↔ (u.role = "teacher" ∨ u.role = "student"))) := by
  have hmem : routeGuard r u = Except.ok u ↔ u.role ∈ routeAllowedRoles r := by
    unfold routeGuard require_role
    by_cases h : u.role ∈ routeAllowedRoles r <;> simp [h]
  refine ⟨hmem, ?_, ?_, ?_⟩
  · intro h
    unfold routeGuard require_role
    simp [h]
  · intro hr
    rw [hmem]
    cases r <;> simp_all [teacherOnlyRoutes, routeAllowedRoles]
  · intro hr
    rw [hmem]
    rcases hr with h | h <;> subst h <;> simp [routeAllowedRoles]

/-- Witness for C1: a student is rejected from video upload with 403, and
admitted to the chatbot. -/
theorem rbac_route_guard_witness :
    routeGuard Route.videoUpload ⟨"alice", "student"⟩ =
      Except.error (PyErr.http 403 "Not enough permissions")
    ∧ routeGuard Route.chatbot ⟨"alice", "student"⟩ =
      Except.ok ⟨"alice", "student"⟩ := by
  refine ⟨?_, ?_⟩
  · exact (rbac_route_guard Route.videoUpload ⟨"alice", "student"⟩).2.1 (by decide)
  · exact ((rbac_route_guard Route.chatbot ⟨"alice", "student"⟩).2.2.2
      (Or.inl rfl)).mpr (Or.inr rfl)

/-- Claim C4 (code bug): the MCQ model declares no video_id column, so for
a stored video titled "v" the delete action evaluates `MCQ.video_id` and
raises AttributeError (surfacing as a 500) instead of deleting the video
and its quiz rows and returning a success message. -/
theorem review_video_delete_raises :
    "video_id" ∉ mcqColumns
    ∧ review_video (fun _ => Except.error "unused") (fun _ => none)
        ⟨[⟨1, "v", "v.mp4", "uploads/videos/v.mp4", some "t"⟩],
          [⟨2, "v", some (Json.str "Q"), none, some (Json.str "True")⟩], 3⟩
        "v" "delete"
      = Except.error
          (PyErr.attributeError "type object \x27MCQ\x27 has no attribute \x27video_id\x27") := by
  exact ⟨by decide, rfl⟩

/-- Claim C5: chat_with_video retrieves from the collection named after the
video title (spaces replaced by underscores) with the MMR retriever, joins
the chunks with blank lines into the context, builds the prompt from the
title, context, history and query, calls the model exactly once on that
prompt, and returns the model's text. -/
theorem chat_pipeline (retrieve : RetrieverArgs → String → String → List String)
    (llm : String → String) (tmpl : String → String → String → String → String)
    (video_title user_query : String) (hist : List (String × String)) :
    chat_with_video retrieve llm tmpl video_title user_query hist
      = ([ChatEv.retrieve chatRetrieverArgs (pyReplaceChar video_title ' ' '_') user_query,
          ChatEv.generate (build_chat_prompt tmpl video_title
            (String.intercalate "\n\n"
              (retrieve chatRetrieverArgs (pyReplaceChar video_title ' ' '_') user_query))
            hist user_query)],
        llm (build_chat_prompt tmpl video_title
          (String.intercalate "\n\n"
            (retrieve chatRetrieverArgs (pyReplaceChar video_title ' ' '_') user_query))
          hist user_query))
    ∧ (chat_with_video retrieve llm tmpl video_title user_query hist).1.countP
        (fun e => match e with | ChatEv.generate _ => true | _ => false) = 1 := by
  exact ⟨rfl, rfl⟩

/-- Claim C6 counterexample: the chunking and retrieval parameters are not
the library defaults; the code passes explicit values. -/
theorem library_defaults_refuted :
    embedSplitterArgs ≠ specDefaultSplitterArgs
    ∧ chatRetrieverArgs ≠ specDefaultRetrieverArgs := by
  exact ⟨by decide, by decide⟩

/-- Claim C6 amended: the chunking parameters (chunk_size=1000,
chunk_overlap=50) and the retrieval parameters (MMR search with k=5 and
lambda_mult=0.5) are explicitly chosen by the code: every embedding run
splits with those values and every chat run opens its retriever with
them. -/
theorem explicit_params (ext : Ext) (title fn fp t : String) (st : AppState)
    (retrieve : RetrieverArgs → String → String → List String)
    (llm : String → String) (tmpl : String → String → String → String → String)
    (vt q : String) (hist : List (String × String)) :
    (save_video_and_transcript ext title fn fp t st).1
      = [UploadEv.storeVideo, UploadEv.embedTranscript embedSplitterArgs]
    ∧ (chat_with_video retrieve llm tmpl vt q hist).1.head?
      = some (ChatEv.retrieve chatRetrieverArgs (pyReplaceChar vt ' ' '_') q)
    ∧ embedSplitterArgs = ⟨some 1000, some 50⟩
    ∧ chatRetrieverArgs = ⟨some "mmr", some 5, some 5⟩ := by
  exact ⟨rfl, rfl, rfl, rfl⟩

/-- The embedding loop of both GeminiEmbedding classes appends one API
call per input text. -/
theorem embedLoop_spec (embedApi : String → List Int) :
    ∀ (texts : List String) (acc : List (List Int) × List String),
      texts.foldl (fun acc text => (acc.1 ++ [embedApi text], acc.2 ++ [text])) acc
        = (acc.1 ++ texts.map embedApi, acc.2 ++ texts) := by
  intro texts
  induction texts with
  | nil => intro acc; simp
  | cons t ts ih =>
    intro acc
    simp only [List.foldl_cons, List.map_cons, ih]
    simp [List.append_assoc]

/-- Claim C8 counterexample: embedding a two-element document list invokes
the embedding endpoint twice, not once (both in embeddings.py and in
chatbot.py). -/
theorem embedding_single_call_refuted :
    ((gemini_embed_documents (fun _ => [0]) ["a", "b"]).2.length = 2
      ∧ ¬ (gemini_embed_documents (fun _ => [0]) ["a", "b"]).2.length = 1)
    ∧ ((geminiEmbeddingCall (fun _ => [0]) ["a", "b"]).2.length = 2
      ∧ ¬ (geminiEmbeddingCall (fun _ => [0]) ["a", "b"]).2.length = 1) := by
  exact ⟨⟨rfl, by decide⟩, ⟨rfl, by decide⟩⟩

/-- Claim C8 amended: the embedding operations invoke the external
embedding endpoint exactly once per input text: for a list of texts the
call log is exactly that list (so its length is the number of texts, not
one), and embed_query makes a single call. -/
theorem embedding_calls_per_text (embedApi : String → List Int)
    (texts : List String) (text : String) :
    (geminiEmbeddingCall embedApi texts).2 = texts
    ∧ (geminiEmbeddingCall embedApi texts).1 = texts.map embedApi
    ∧ (gemini_embed_documents embedApi texts).2 = texts
    ∧ (gemini_embed_documents embedApi texts).1 = texts.map embedApi
    ∧ (gemini_embed_documents embedApi texts).2.length = texts.length
    ∧ (gemini_embed_query embedApi text).2 = [text] := by
  have h := embedLoop_spec embedApi texts ([], [])
  refine ⟨?_, ?_, ?_, ?_, ?_, rfl⟩
  · unfold geminiEmbeddingCall; rw [h]; simp
  · unfold geminiEmbeddingCall; rw [h]; simp
  · unfold gemini_embed_documents; rw [h]; simp
  · unfold gemini_embed_documents; rw [h]; simp
  · unfold gemini_embed_documents; rw [h]; simp

/-- Claim C9: transcription is a single call to the speech API: exactly
one sync_prerecorded call is made; when the call succeeds and the first
channel's first alternative's transcript extracts, the stripped transcript
is returned; an HTTP 500 error is raised when the call or the extraction
fails. -/
theorem transcribe_single_call (dg : DgCall → Except String Json) :
    (transcribe_audio dg).1.length = 1
    ∧ (∀ resp t, dg ⟨"audio/mpeg", true⟩ = Except.ok resp →
        dgExtractTranscript resp = some t →
        (transcribe_audio dg).2 = Except.ok (pyStrip t))
    ∧ (∀ e, dg ⟨"audio/mpeg", true⟩ = Except.error e →
        (transcribe_audio dg).2
          = Except.error (PyErr.http 500 ("Transcription failed: " ++ e)))
    ∧ (∀ resp, dg ⟨"audio/mpeg", true⟩ = Except.ok resp →
        dgExtractTranscript resp = none →
        (transcribe_audio dg).2
          = Except.error (PyErr.http 500 "Transcription failed")) := by
  refine ⟨?_, ?_, ?_, ?_⟩
  · unfold transcribe_audio
    cases h : dg ⟨"audio/mpeg", true⟩ with
    | error e => simp [h]
    | ok resp => cases hx : dgExtractTranscript resp <;> simp [h, hx]
  · intro resp t h1 h2
    simp [transcribe_audio, h1, h2]
  · intro e h1
    simp [transcribe_audio, h1]
  · intro resp h1 h2
    simp [transcribe_audio, h1, h2]

/-- Witness for C9: on a concrete Deepgram response the call log has
length one and the stripped transcript comes back. -/
theorem transcribe_single_call_witness :
    dgExtractTranscript dgRespC9 = some " hi "
    ∧ (transcribe_audio (fun _ => Except.ok dgRespC9)).1.length = 1
    ∧ (transcribe_audio (fun _ => Except.ok dgRespC9)).2 = Except.ok "hi" :=
  ⟨rfl, (transcribe_single_call _).1,
    (transcribe_single_call _).2.1 dgRespC9 " hi " rfl rfl⟩

/-- Filtering then mapping agree across two pointwise-related lists when
neither the predicate nor the projection can distinguish related
elements. -/
theorem forall2_filter_map {α β : Type} (p : α → Bool) (f : α → β)
    (R : α → α → Prop) (hp : ∀ a b, R a b → p a = p b)
    (hf : ∀ a b, R a b → f a = f b) :
    ∀ {l1 l2 : List α}, List.Forall₂ R l1 l2 →
      (l1.filter p).map f = (l2.filter p).map f := by
  intro l1 l2 h
  induction h with
  | nil => rfl
  | @cons a b l1' l2' hab htl ih =>
    by_cases hpa : p a = true
    · have hpb : p b = true := by rw [← hp a b hab]; exact hpa
      simp [List.filter_cons, hpa, hpb, hf a b hab, ih]
    · have hpb : ¬ p b = true := by rw [← hp a b hab]; exact hpa
      simp [List.filter_cons, hpa, hpb, ih]

/-- Claim C7: the take-quiz response exposes only each matching question's
text and options (with the True/False default when no truthy options are
stored), is identical for database states that differ only in stored
answers, and raises 404 exactly when no question matches the title. -/
theorem take_quiz_hides_answers (d1 d2 : DB) (t : String)
    (h : dbSameExceptAnswers d1 d2) :
    get_quiz_questions d1 t = get_quiz_questions d2 t
    ∧ (get_quiz_questions d1 t
        = Except.error (PyErr.http 404 "No quiz found for this video.")
        ↔ ∀ q ∈ d1.mcqs, q.video_title ≠ t)
    ∧ (get_quiz_questions d1 t
        = Except.error (PyErr.http 404 "No quiz found for this video.")
      ∨ get_quiz_questions d1 t
        = Except.ok ((d1.mcqs.filter (fun q => q.video_title == t)).map quizView)) := by
  have hp : ∀ a b, sameExceptAnswer a b →
      (fun q : MCQRow => q.video_title == t) a
        = (fun q : MCQRow => q.video_title == t) b := by
    intro a b hab
    simp only
    rw [hab.2.1]
  have hf : ∀ a b, sameExceptAnswer a b → quizView a = quizView b := by
    intro a b hab
    unfold quizView
    rw [hab.2.2.1, hab.2.2.2]
  have hmap := forall2_filter_map (fun q : MCQRow => q.video_title == t) quizView
    sameExceptAnswer hp hf h.2
  have hlen : (d1.mcqs.filter (fun q => q.video_title == t)).length
      = (d2.mcqs.filter (fun q => q.video_title == t)).length := by
    have hl := congrArg List.length hmap
    simpa using hl
  refine ⟨?_, ?_, ?_⟩
  · unfold get_quiz_questions
    by_cases he : (d1.mcqs.filter (fun q => q.video_title == t)).isEmpty
    · have he2 : (d2.mcqs.filter (fun q => q.video_title == t)).isEmpty := by
        rw [List.isEmpty_iff_length_eq_zero] at he ⊢
        omega
      simp [he, he2]
    · have he2 : ¬ (d2.mcqs.filter (fun q => q.video_title == t)).isEmpty := by
        rw [List.isEmpty_iff_length_eq_zero] at he ⊢
        omega
      simp [he, he2, hmap]
  · unfold get_quiz_questions
    by_cases he : (d1.mcqs.filter (fun q => q.video_title == t)).isEmpty
    · simp only [he, if_true]
      rw [List.isEmpty_iff] at he
      rw [List.filter_eq_nil_iff] at he
      simp only [true_iff]
      intro q hq
      have := he q hq
      simpa using this
    · simp only [he, if_false]
      constructor
      · intro hcontr
        exact absurd hcontr (by simp)
      · intro hall
        exfalso
        apply he
        rw [List.isEmpty_iff, List.filter_eq_nil_iff]
        intro q hq
        have := hall q hq
        simpa using this
  · unfold get_quiz_questions
    by_cases he : (d1.mcqs.filter (fun q => q.video_title == t)).isEmpty
    · simp [he]
    · simp [he]

/-- Witness for C7: two one-row databases differing only in the stored
answer produce identical take-quiz responses. -/
theorem take_quiz_hides_answers_witness :
    dbSameExceptAnswers dbC7a dbC7b
    ∧ get_quiz_questions dbC7a "v" = get_quiz_questions dbC7b "v" := by
  have hs : dbSameExceptAnswers dbC7a dbC7b :=
    ⟨rfl, List.Forall₂.cons ⟨rfl, rfl, rfl, rfl⟩ List.Forall₂.nil⟩
  exact ⟨hs, (take_quiz_hides_answers dbC7a dbC7b "v" hs).1⟩

/-- Claim C3 counterexample: when the model's text parses to the JSON list
[1], the claim says one question row is stored per element, but the code
raises an error (the storage loop calls .get on the integer element, an
AttributeError caught and re-raised as a RuntimeError) and stores
nothing. -/
theorem generate_mcqs_nondict_refuted :
    generate_and_store_mcqs (fun _ => Except.ok "[1]")
      (fun s => if s = "[1]" then some (Json.arr [Json.num 1]) else none)
      "hello" "vid" ⟨[], [], 0⟩
      = Except.error (PyErr.runtimeError "Failed to store MCQs") := rfl

/-- Claim C3 amended: generate_and_store_mcqs templates the transcript
into the fixed prompt and parses the model's text after cleaning; it
errors, storing nothing, when the transcript strips to empty or the
cleaned text does not parse to a JSON list — and, the amendment, also when
some parsed element is not a JSON object carrying question and answer;
otherwise it stores exactly one row per parsed element, tagged with the
video title, keeping options only for elements whose type is "mcq". -/
theorem generate_mcqs_spec (llm : String → Except String String)
    (parse : String → Option Json) (transcript video_title : String) (db : DB) :
    (pyStrip transcript = "" →
      generate_and_store_mcqs llm parse transcript video_title db
        = Except.error (PyErr.valueError "Transcript is empty. Cannot generate MCQs."))
    ∧ (∀ raw, pyStrip transcript ≠ "" →
        llm (mcqPrompt transcript) = Except.ok raw →
        parse (extract_json_from_text raw) = none →
        generate_and_store_mcqs llm parse transcript video_title db
          = Except.error (PyErr.valueError "Gemini response is not valid JSON"))
    ∧ (∀ raw j, pyStrip transcript ≠ "" →
        llm (mcqPrompt transcript) = Except.ok raw →
        parse (extract_json_from_text raw) = some j →
        (∀ xs, j ≠ Json.arr xs) →
        generate_and_store_mcqs llm parse transcript video_title db
          = Except.error (PyErr.valueError
              "Gemini response is not valid JSON: Parsed JSON is not a list."))
    ∧ (∀ raw xs, pyStrip transcript ≠ "" →
        llm (mcqPrompt transcript) = Except.ok raw →
        parse (extract_json_from_text raw) = some (Json.arr xs) →
        (xs.all jIsObj
          && (xs.enum.map (fun p => mkMcqRow video_title (db.nextId + p.1) p.2)).all
            (fun r => r.question.isSome && r.answer.isSome)) = true →
        generate_and_store_mcqs llm parse transcript video_title db
          = Except.ok
              (⟨db.videos,
                db.mcqs
                  ++ xs.enum.map (fun p => mkMcqRow video_title (db.nextId + p.1) p.2),
                db.nextId + xs.length⟩,
                toString xs.length ++ " questions stored successfully")
          ∧ (xs.enum.map (fun p => mkMcqRow video_title (db.nextId + p.1) p.2)).length
              = xs.length
          ∧ ∀ p ∈ xs.enum,
              (mkMcqRow video_title (db.nextId + p.1) p.2).video_title = video_title
              ∧ (jIsStrEq (jGet p.2 "type") "mcq" = false →
                  (mkMcqRow video_title (db.nextId + p.1) p.2).options = none))
    ∧ (∀ raw xs, pyStrip transcript ≠ "" →
        llm (mcqPrompt transcript) = Except.ok raw →
        parse (extract_json_from_text raw) = some (Json.arr xs) →
        (xs.all jIsObj
          && (xs.enum.map (fun p => mkMcqRow video_title (db.nextId + p.1) p.2)).all
            (fun r => r.question.isSome && r.answer.isSome)) = false →
        generate_and_store_mcqs llm parse transcript video_title db
          = Except.error (PyErr.runtimeError "Failed to store MCQs")) := by
  refine ⟨?_, ?_, ?_, ?_, ?_⟩
  · intro h
    simp [generate_and_store_mcqs, h]
  · intro raw hne h1 h2
    simp [generate_and_store_mcqs, hne, h1, h2]
  · intro raw j hne h1 h2 hna
    cases j with
    | null => simp [generate_and_store_mcqs, hne, h1, h2]
    | bool b => simp [generate_and_store_mcqs, hne, h1, h2]
    | num n => simp [generate_and_store_mcqs, hne, h1, h2]
    | str s => simp [generate_and_store_mcqs, hne, h1, h2]
    | arr xs => exact absurd rfl (hna xs)
    | obj kvs => simp [generate_and_store_mcqs, hne, h1, h2]
  · intro raw xs hne h1 h2 hall
    refine ⟨?_, ?_, ?_⟩
    · simp [generate_and_store_mcqs, hne, h1, h2, hall]
    · simp
    · intro p _
      refine ⟨rfl, ?_⟩
      intro hty
      simp [mkMcqRow, hty]
  · intro raw xs hne h1 h2 hfail
    simp [generate_and_store_mcqs, hne, h1, h2, hfail]

/-- Witness for C3: a concrete run storing one MCQ row (with options) and
one true/false row (options dropped), and a run whose element carries a
null question erroring with nothing stored. -/
theorem generate_mcqs_spec_witness :
    pyStrip "T" ≠ ""
    ∧ parseC3 (extract_json_from_text rawC3) = some (Json.arr [itemC3a, itemC3b])
    ∧ generate_and_store_mcqs (fun _ => Except.ok rawC3) parseC3 "T" "vid" ⟨[], [], 0⟩
        = Except.ok
            (⟨[], [⟨0, "vid", some (Json.str "Q1"),
                some (Json.arr [Json.str "A", Json.str "B", Json.str "C", Json.str "D"]),
                some (Json.str "A")⟩,
              ⟨1, "vid", some (Json.str "Q2"), none, some (Json.str "True")⟩], 2⟩,
              "2 questions stored successfully")
    ∧ generate_and_store_mcqs (fun _ => Except.ok rawC3n) parseC3n "T" "vid" ⟨[], [], 0⟩
        = Except.error (PyErr.runtimeError "Failed to store MCQs") := by
  refine ⟨by decide, rfl, ?_, ?_⟩
  · exact ((generate_mcqs_spec (fun _ => Except.ok rawC3) parseC3 "T" "vid"
      ⟨[], [], 0⟩).2.2.2.1 rawC3 [itemC3a, itemC3b] (by decide) rfl rfl rfl).1
  · exact (generate_mcqs_spec (fun _ => Except.ok rawC3n) parseC3n "T" "vid"
      ⟨[], [], 0⟩).2.2.2.2 rawC3n [itemC3n] (by decide) rfl rfl rfl

/-- Claim C10: decoding a token produced by create_access_token with the
same secret before its expiry returns the original username and role, and
decoding fails with a 401 error when the token is signed with a different
key, when the sub or role claim is missing, or when the token is
expired. -/
theorem token_round_trip (u r secret : String) (now now2 : Int)
    (delta : Option Int)
    (hexp : now2 < now +
      (match delta with
        | some d => d
        | none => ACCESS_TOKEN_EXPIRE_MINUTES)) :
    get_current_user
        (create_access_token [("sub", Json.str u), ("role", Json.str r)] now delta secret)
        secret now2
      = Except.ok ⟨u, r⟩
    ∧ (∀ tok : Jwt, tok.key ≠ secret →
        get_current_user tok secret now2
          = Except.error (PyErr.http 401 "Invalid authentication"))
    ∧ (∀ claims : List (String × Json), dictGet claims "exp" = none →
        (dictGet claims "sub" = none ∨ dictGet claims "role" = none) →
        get_current_user ⟨claims, secret⟩ secret now2
          = Except.error (PyErr.http 401 "Invalid authentication"))
    ∧ (∀ (claims : List (String × Json)) (e : Int),
        dictGet claims "exp" = some (Json.num e) → e ≤ now2 →
        get_current_user ⟨claims, secret⟩ secret now2
          = Except.error (PyErr.http 401 "Invalid authentication")) := by
  refine ⟨?_, ?_, ?_, ?_⟩
  · simp [get_current_user, create_access_token, jwt_encode, jwt_decode,
      dictUpdate, dictGet, hexp]
  · intro tok hk
    simp [get_current_user, jwt_decode, hk]
  · intro claims hexp0 hor
    rcases hor with h | h
    · simp [get_current_user, jwt_decode, hexp0, h]
    · cases hsub : dictGet claims "sub" <;>
        simp [get_current_user, jwt_decode, hexp0, h, hsub]
  · intro claims e hexp0 hle
    have hnl : ¬ (now2 < e) := not_lt.mpr hle
    simp [get_current_user, jwt_decode, hexp0, hnl]

/-- Witness for C10: a concrete token for alice/teacher decodes back
before expiry. -/
theorem token_round_trip_witness :
    ((0 : Int) < 0 +
      (match (none : Option Int) with
        | some d => d
        | none => ACCESS_TOKEN_EXPIRE_MINUTES))
    ∧ get_current_user
        (create_access_token [("sub", Json.str "alice"), ("role", Json.str "teacher")]
          0 none "s3cret") "s3cret" 0
      = Except.ok ⟨"alice", "teacher"⟩ :=
  ⟨by decide, (token_round_trip "alice" "teacher" "s3cret" 0 0 none (by decide)).1⟩

/-- Claim C2: for every upload (file upload or YouTube link) whose
external steps succeed, the pipeline performs, in this order: save the
video file, extract its audio, transcribe the audio, store the video row
with its transcript (embedding the transcript into the vector store), then
generate and store the quiz questions; the response carries the new video
id and the transcript. -/
theorem upload_pipeline (ext : Ext) (title fileName url : String)
    (st : AppState) (resp : Json) (t : String) (db2 db3 : DB) (m2 m3 : String)
    (hfn : fileName ≠ "")
    (hsave : ext.saveFileOk = Except.ok ())
    (hex : ext.extractAudioOk = Except.ok ())
    (hdg : ext.dg ⟨"audio/mpeg", true⟩ = Except.ok resp)
    (hx : dgExtractTranscript resp = some t)
    (hgen : generate_and_store_mcqs ext.llm ext.parse (pyStrip t) title
        (save_video_and_transcript ext title (uploadVideoFilename ext title fileName)
          ("uploads/videos/" ++ uploadVideoFilename ext title fileName)
          (pyStrip t) st).2.1.db
      = Except.ok (db2, m2))
    (hgen2 : generate_and_store_mcqs ext.llm ext.parse (pyStrip t) title
        (save_video_and_transcript ext title (uploadYoutubeFilename ext title)
          ("uploads/videos/" ++ uploadYoutubeFilename ext title)
          (pyStrip t) st).2.1.db
      = Except.ok (db3, m3)) :
    upload_video ext title fileName st
      = ([UploadEv.saveFile, UploadEv.extractAudio, UploadEv.dgTranscribe,
          UploadEv.storeVideo, UploadEv.embedTranscript embedSplitterArgs,
          UploadEv.generateMcqs],
        Except.ok
          (⟨db2,
            (save_video_and_transcript ext title (uploadVideoFilename ext title fileName)
              ("uploads/videos/" ++ uploadVideoFilename ext title fileName)
              (pyStrip t) st).2.1.store⟩,
            ⟨st.db.nextId,
              "Video uploaded, transcribed, and MCQs generated successfully",
              pyStrip t⟩))
    ∧ upload_youtube_video ext url title st
      = ([UploadEv.saveFile, UploadEv.extractAudio, UploadEv.dgTranscribe,
          UploadEv.storeVideo, UploadEv.embedTranscript embedSplitterArgs,
          UploadEv.generateMcqs],
        Except.ok
          (⟨db3,
            (save_video_and_transcript ext title (uploadYoutubeFilename ext title)
              ("uploads/videos/" ++ uploadYoutubeFilename ext title)
              (pyStrip t) st).2.1.store⟩,
            ⟨st.db.nextId,
              "YouTube video processed, transcribed, and MCQs generated successfully",
              pyStrip t⟩)) := by
  have ht : transcribe_audio ext.dg = ([⟨"audio/mpeg", true⟩], Except.ok (pyStrip t)) := by
    unfold transcribe_audio
    simp only [hdg, hx]
  constructor
  · unfold upload_video
    rw [if_neg hfn]
    simp only [save_video_and_transcript] at hgen ⊢
    simp only [hsave, hex, ht, hgen]
    rfl
  · unfold upload_youtube_video
    simp only [save_video_and_transcript] at hgen2 ⊢
    simp only [hsave, hex, ht, hgen2]
    rfl

/-- Witness for C2: a concrete upload into the empty state runs the six
pipeline steps in order and answers with the new id and the stripped
transcript. -/
theorem upload_pipeline_witness :
    "clip.mp4" ≠ ""
    ∧ upload_video extW "Vid" "clip.mp4" stW
      = ([UploadEv.saveFile, UploadEv.extractAudio, UploadEv.dgTranscribe,
          UploadEv.storeVideo, UploadEv.embedTranscript embedSplitterArgs,
          UploadEv.generateMcqs],
        Except.ok
          (⟨dbW, [("Vid", ["hello world"])]⟩,
            ⟨0, "Video uploaded, transcribed, and MCQs generated successfully",
              "hello world"⟩)) := by
  refine ⟨by decide, ?_⟩
  exact (upload_pipeline extW "Vid" "clip.mp4" "url" stW dgRespW " hello world "
    dbW dbW "0 questions stored successfully" "0 questions stored successfully"
    (by decide) rfl rfl rfl rfl rfl rfl).1

/-- Witness for C5: a concrete chat run shows the retrieval step, the
single model call on the assembled prompt, and the returned text. -/
theorem chat_pipeline_witness :
    chat_with_video (fun _ _ _ => ["d1", "d2"]) (fun p => p)
      (fun a b c d => a ++ "|" ++ b ++ "|" ++ c ++ "|" ++ d) "My Vid" "q?" []
      = ([ChatEv.retrieve chatRetrieverArgs "My_Vid" "q?",
          ChatEv.generate "My Vid|d1\n\nd2|No previous messages.|q?"],
        "My Vid|d1\n\nd2|No previous messages.|q?") :=
  (chat_pipeline (fun _ _ _ => ["d1", "d2"]) (fun p => p)
    (fun a b c d => a ++ "|" ++ b ++ "|" ++ c ++ "|" ++ d) "My Vid" "q?" []).1

/-- Witness for the amended C6: a concrete save emits the embedding step
with the explicit splitter arguments, and the explicit values are 1000/50
and mmr/5/0.5. -/
theorem explicit_params_witness :
    (save_video_and_transcript extW "Vid" "f" "p" "t" stW).1
      = [UploadEv.storeVideo, UploadEv.embedTranscript embedSplitterArgs]
    ∧ embedSplitterArgs = ⟨some 1000, some 50⟩
    ∧ chatRetrieverArgs = ⟨some "mmr", some 5, some 5⟩ := by
  have h := explicit_params extW "Vid" "f" "p" "t" stW
    (fun _ _ _ => []) (fun s => s) (fun a _ _ _ => a) "V" "q" []
  exact ⟨h.1, h.2.2.1, h.2.2.2⟩

/-- Witness for the amended C8: embedding three documents logs exactly
those three API calls; a query logs one. -/
theorem embedding_calls_per_text_witness :
    (geminiEmbeddingCall (fun _ => [1]) ["x", "y", "z"]).2 = ["x", "y", "z"]
    ∧ (gemini_embed_query (fun _ => [1]) "x").2 = ["x"] := by
  have h := embedding_calls_per_text (fun _ => [1]) ["x", "y", "z"] "x"
  exact ⟨h.1, h.2.2.2.2.2⟩

end QuizStream
